import Mathlib

/-!
Verification of the dynamically-sized record layout engine of
`src/uefi/src/proto/media/file/info.rs`.

The three record kinds (`FileInfo`, `FileSystemInfo`, `FileSystemVolumeLabel`)
are dynamically-sized structs: a fixed header followed by a null-terminated
UCS-2 name.  We embed:
  * names as lists of UCS-2 code units (`List Nat`, each unit `< 2^16`;
    a valid `CStr16` content has no interior null),
  * byte buffers as a base address plus a length (`Buffer`),
  * the shared constructor `InfoInternal::new_impl` as an `Except`-returning
    function over the buffer description,
  * each record kind as a Lean structure whose fields mirror the Rust
    struct's fields, with the trailing `[Char16]` slice stored as the list
    of code units it covers (terminator included, as in the fat pointer's
    metadata `name_length_ucs2 = name.as_slice_with_nul().len()`).
-/

/-- A UCS-2 code unit is a 16-bit value. -/
def isChar16 (c : Nat) : Bool := c < 65536

/-- Content of a valid `CStr16` (excluding the terminator): every code unit
is a 16-bit value and none is the null terminator. -/
def ValidName (name : List Nat) : Prop :=
  ∀ c ∈ name, c ≠ 0 ∧ c < 65536

instance (name : List Nat) : Decidable (ValidName name) := by
  unfold ValidName; infer_instance

/-- `CStr16::as_slice_with_nul().len()`: code units including the terminator. -/
def name_length_ucs2 (name : List Nat) : Nat := name.length + 1

/-- `size_of_val(name.as_slice_with_nul())`: bytes of the name trailer,
terminator included (2 bytes per UCS-2 code unit). -/
def name_size (name : List Nat) : Nat := 2 * name_length_ucs2 name

/-- Modelled from the spec: `CStr16::from_ptr` (defined in the repository's
`data_types` module, which is not under `src/`).  Per spec §4.4 it scans
forward from the given position for the first null code unit; the logical
string value is every code unit before it. -/
def cstr16_from_ptr (ws : List Nat) : List Nat :=
  ws.takeWhile (fun c => c != 0)

/-- Modelled from the spec: the SizeCalculator rounding step
(`Align::round_up_to_alignment`, defined in the repository's `data_types`
module, which is not under `src/`).  Per spec §4.2: "Final size = raw size
rounded up to the next multiple of `alignment` (ceiling rounding; if raw
size is already a multiple, it is unchanged)." -/
def round_up_to_alignment (alignment val : Nat) : Nat :=
  if val % alignment = 0 then val else val + (alignment - val % alignment)

/-- Modelled from the spec: the AlignmentValidator trim amount
(`Align::offset_up_to_alignment`, not under `src/`).  Per spec §4.1 the
validator "trims leading bytes from `region` until its base address
satisfies `required_alignment`": this is the number of bytes trimmed for a
base address `addr`. -/
def offset_up_to_alignment (alignment addr : Nat) : Nat :=
  if addr % alignment = 0 then 0 else alignment - addr % alignment

/-- A caller-supplied byte region: base address and length in bytes
(spec §3 RawRegion).  Only the address arithmetic matters for the
construction contract, not the byte contents. -/
structure Buffer where
  base : Nat
  len : Nat
deriving DecidableEq, Repr

/-- The three concrete record kinds implementing `InfoInternal`. -/
inductive InfoKind
  | fileInfo
  | fileSystemInfo
  | fileSystemVolumeLabel
deriving DecidableEq, Repr

/-- `<impl Align>::alignment()` for each kind: 8, 8 and 2 in the source. -/
def InfoKind.alignment : InfoKind → Nat
  | .fileInfo => 8
  | .fileSystemInfo => 8
  | .fileSystemVolumeLabel => 2

/-- `<impl InfoInternal>::name_offset()` for each kind: 80, 36 and 0 in the
source. -/
def InfoKind.name_offset : InfoKind → Nat
  | .fileInfo => 80
  | .fileSystemInfo => 36
  | .fileSystemVolumeLabel => 0

/-- The final record size computed at the top of `InfoInternal::new_impl`:
`info_size = Self::name_offset() + name_size` rounded up to the kind's
alignment. -/
def info_size (k : InfoKind) (name : List Nat) : Nat :=
  round_up_to_alignment k.alignment (k.name_offset + name_size name)

/-- `FileInfoCreationError`: the only construction error, carrying the
required byte count. -/
inductive FileInfoCreationError
  | InsufficientStorage (bytes : Nat)
deriving DecidableEq, Repr

/-- `InfoInternal::new_impl`, the shared construction path: compute the
final size, align the buffer (`Self::align_buf`, which trims
`offset_up_to_alignment` leading bytes and fails if the buffer is shorter
than the trim), check the remaining capacity, and on success hand back the
aligned region together with the size value passed to the header
initializer.  The header and name writes themselves are modelled by the
per-kind constructors below and by `build_writes`. -/
def new_impl (k : InfoKind) (storage : Buffer) (name : List Nat) :
    Except FileInfoCreationError (Buffer × Nat) :=
  let sz := info_size k name
  let trim := offset_up_to_alignment k.alignment storage.base
  if storage.len < trim then
    Except.error (FileInfoCreationError.InsufficientStorage sz)
  else
    let aligned := Buffer.mk (storage.base + trim) (storage.len - trim)
    if aligned.len < sz then
      Except.error (FileInfoCreationError.InsufficientStorage sz)
    else
      Except.ok (aligned, sz)

/-- `Time` (from the repository's `runtime` module, not under `src/`):
its internals are irrelevant to every claim, so it is embedded as an
opaque-value wrapper. -/
structure Time where
  rep : Nat
deriving DecidableEq, Repr

/-- `FileAttribute` is a 64-bit bitflags value; embedded as the raw bits. -/
abbrev FileAttribute := Nat

/-- Modelled from the spec: the DIRECTORY attribute bit of the `FileAttribute`
bitflags (declared in the repository's `file` module, not under `src/`);
the UEFI directory bit is `0x10`. -/
def FileAttribute.DIRECTORY : FileAttribute := 0x10

/-- Modelled from the spec: bitflags `contains` — all bits of the argument
flag are set in the receiver. -/
def FileAttribute.contains (a f : FileAttribute) : Bool :=
  a &&& f == f

/-- The `FileInfo` struct: header fields in declaration order, then the
trailing `file_name: [Char16]` slice (stored code units, terminator
included — its length is the fat pointer's metadata).  The source field
`attribute` is named `attr` here because `attribute` is reserved in Lean. -/
structure FileInfo where
  size : Nat
  file_size : Nat
  physical_size : Nat
  create_time : Time
  last_access_time : Time
  modification_time : Time
  attr : FileAttribute
  file_name : List Nat
deriving DecidableEq, Repr

/-- `FileInfo::new`: runs `new_impl` with the `FileInfo` header initializer,
which writes the computed size plus the caller's field values, then the
name slice (name plus terminator) is copied in. -/
def FileInfo.new (storage : Buffer) (file_size physical_size : Nat)
    (create_time last_access_time modification_time : Time)
    (attr : FileAttribute) (file_name : List Nat) :
    Except FileInfoCreationError FileInfo :=
  (new_impl .fileInfo storage file_name).map fun p =>
    { size := p.2
      file_size := file_size
      physical_size := physical_size
      create_time := create_time
      last_access_time := last_access_time
      modification_time := modification_time
      attr := attr
      file_name := file_name ++ [0] }

/-- `FileInfo::file_name()`: decode the stored slice as a null-terminated
string (`CStr16::from_ptr` on the slice start). -/
def FileInfo.file_name_str (i : FileInfo) : List Nat :=
  cstr16_from_ptr i.file_name

/-- `FileInfo::is_directory()`. -/
def FileInfo.is_directory (i : FileInfo) : Bool :=
  i.attr.contains FileAttribute.DIRECTORY

/-- `FileInfo::is_regular_file()`. -/
def FileInfo.is_regular_file (i : FileInfo) : Bool :=
  !i.is_directory

/-- Rust `size_of_val` on the fat reference `&FileInfo`: header bytes plus
`2 * metadata` name bytes, rounded up to the struct alignment (8). -/
def FileInfo.size_of_val (i : FileInfo) : Nat :=
  round_up_to_alignment InfoKind.fileInfo.alignment
    (InfoKind.fileInfo.name_offset + 2 * i.file_name.length)

/-- The `FileSystemInfo` struct: header fields in declaration order, then
the trailing `volume_label: [Char16]` slice. -/
structure FileSystemInfo where
  size : Nat
  read_only : Bool
  volume_size : Nat
  free_space : Nat
  block_size : Nat
  volume_label : List Nat
deriving DecidableEq, Repr

/-- `FileSystemInfo::new`. -/
def FileSystemInfo.new (storage : Buffer) (read_only : Bool)
    (volume_size free_space block_size : Nat) (volume_label : List Nat) :
    Except FileInfoCreationError FileSystemInfo :=
  (new_impl .fileSystemInfo storage volume_label).map fun p =>
    { size := p.2
      read_only := read_only
      volume_size := volume_size
      free_space := free_space
      block_size := block_size
      volume_label := volume_label ++ [0] }

/-- `FileSystemInfo::volume_label()`. -/
def FileSystemInfo.volume_label_str (i : FileSystemInfo) : List Nat :=
  cstr16_from_ptr i.volume_label

/-- Rust `size_of_val` on the fat reference `&FileSystemInfo`. -/
def FileSystemInfo.size_of_val (i : FileSystemInfo) : Nat :=
  round_up_to_alignment InfoKind.fileSystemInfo.alignment
    (InfoKind.fileSystemInfo.name_offset + 2 * i.volume_label.length)

/-- The `FileSystemVolumeLabel` struct: no header fields, only the trailing
`volume_label: [Char16]` slice. -/
structure FileSystemVolumeLabel where
  volume_label : List Nat
deriving DecidableEq, Repr

/-- `FileSystemVolumeLabel::new`. -/
def FileSystemVolumeLabel.new (storage : Buffer) (volume_label : List Nat) :
    Except FileInfoCreationError FileSystemVolumeLabel :=
  (new_impl .fileSystemVolumeLabel storage volume_label).map fun _ =>
    { volume_label := volume_label ++ [0] }

/-- `FileSystemVolumeLabel::volume_label()`. -/
def FileSystemVolumeLabel.volume_label_str (i : FileSystemVolumeLabel) : List Nat :=
  cstr16_from_ptr i.volume_label

/-- Rust `size_of_val` on the fat reference `&FileSystemVolumeLabel`. -/
def FileSystemVolumeLabel.size_of_val (i : FileSystemVolumeLabel) : Nat :=
  round_up_to_alignment InfoKind.fileSystemVolumeLabel.alignment
    (InfoKind.fileSystemVolumeLabel.name_offset + 2 * i.volume_label.length)

/-!
Reconstruction (`FromUefi::from_uefi`).  The memory at the given address
holds a previously built record (precondition of the trait method): its
header bytes, then the stored name slice, then whatever bytes follow the
record in memory (`junk`).  `from_uefi` computes `name_ptr` at
`name_offset`, scans with `CStr16::from_ptr` for the first null code unit,
takes `name_len = name.as_slice_with_nul().len()` and rebuilds the fat
pointer with that metadata; the view's header fields are read from the same
memory, and its name slice covers the first `name_len` code units after the
header. -/

/-- `FromUefi::from_uefi` at a `FileInfo` record: `mem` is the record in
memory at the given address, `junk` the memory contents following it. -/
def FileInfo.from_uefi (mem : FileInfo) (junk : List Nat) : FileInfo :=
  let ws := mem.file_name ++ junk
  let name_len := name_length_ucs2 (cstr16_from_ptr ws)
  { mem with file_name := ws.take name_len }

/-- `FromUefi::from_uefi` at a `FileSystemInfo` record. -/
def FileSystemInfo.from_uefi (mem : FileSystemInfo) (junk : List Nat) :
    FileSystemInfo :=
  let ws := mem.volume_label ++ junk
  let name_len := name_length_ucs2 (cstr16_from_ptr ws)
  { mem with volume_label := ws.take name_len }

/-- `FromUefi::from_uefi` at a `FileSystemVolumeLabel` record. -/
def FileSystemVolumeLabel.from_uefi (mem : FileSystemVolumeLabel)
    (junk : List Nat) : FileSystemVolumeLabel :=
  let ws := mem.volume_label ++ junk
  let name_len := name_length_ucs2 (cstr16_from_ptr ws)
  { mem with volume_label := ws.take name_len }

/-- The byte extent of a view: from the record's base through the end of
the name slice the fat pointer addresses, i.e. `name_offset` plus two
bytes per code unit of metadata (spec §4.4's
`header_size + (name_code_units + 1) * 2`). -/
def FileInfo.view_extent (i : FileInfo) : Nat :=
  InfoKind.fileInfo.name_offset + 2 * i.file_name.length

/-- The byte extent of a `FileSystemInfo` view. -/
def FileSystemInfo.view_extent (i : FileSystemInfo) : Nat :=
  InfoKind.fileSystemInfo.name_offset + 2 * i.volume_label.length

/-- The byte extent of a `FileSystemVolumeLabel` view. -/
def FileSystemVolumeLabel.view_extent (i : FileSystemVolumeLabel) : Nat :=
  InfoKind.fileSystemVolumeLabel.name_offset + 2 * i.volume_label.length

/-!
Write footprint of construction.  `new_impl` performs its two checks before
any write; on success the `init` closure writes the header fields and
`ptr::copy` writes the name slice.  The header field byte ranges follow the
`repr(C)` field layout of each struct declaration:
  * `FileInfo` (80-byte header): `size` at 0, `file_size` at 8,
    `physical_size` at 16, the three 16-byte `Time` values at 24, 40 and
    56, `attribute` at 72;
  * `FileSystemInfo` (36-byte header): `size` at 0, the one-byte
    `read_only` at 8, `volume_size` at 16, `free_space` at 24,
    `block_size` at 32;
  * `FileSystemVolumeLabel`: no header fields.
-/

/-- Byte ranges `(offset, length)` within the record written by the `init`
closure of each kind's `new` entry point. -/
def header_field_ranges (k : InfoKind) : List (Nat × Nat) :=
  match k with
  | .fileInfo => [(0, 8), (8, 8), (16, 8), (24, 16), (40, 16), (56, 16), (72, 8)]
  | .fileSystemInfo => [(0, 8), (8, 1), (16, 8), (24, 8), (32, 4)]
  | .fileSystemVolumeLabel => []

/-- The absolute byte ranges written by a `new_impl` run, in program order,
paired with its outcome: a failing run returns before any write, a
successful run writes the header fields and then the name slice
(terminator included) at `name_offset`. -/
def build_writes (k : InfoKind) (storage : Buffer) (name : List Nat) :
    List (Nat × Nat) × Except FileInfoCreationError Buffer :=
  match new_impl k storage name with
  | .error e => ([], Except.error e)
  | .ok p =>
      ((header_field_ranges k).map (fun r => (p.1.base + r.1, r.2)) ++
        [(p.1.base + k.name_offset, name_size name)],
       Except.ok p.1)

/-- The UCS-2 code units of `"test_name"` (the name used by the source's
`test_file_info` test). -/
def testName : List Nat := [116, 101, 115, 116, 95, 110, 97, 109, 101]

/-- The UCS-2 code units of `"test_name2"` (the name used by the source's
`test_file_system_info` test). -/
def testName2 : List Nat := [116, 101, 115, 116, 95, 110, 97, 109, 101, 50]

/-!
Helper lemmas shared by the claim theorems.
-/

/-- The computed final size is at least the raw (unrounded) size. -/
theorem info_size_lower (k : InfoKind) (name : List Nat) :
    k.name_offset + name_size name ≤ info_size k name := by
  cases k <;>
    simp only [info_size, round_up_to_alignment, InfoKind.alignment,
      InfoKind.name_offset, name_size, name_length_ucs2] <;>
    split <;> omega

/-- The computed final size is a multiple of the kind's alignment. -/
theorem info_size_mod (k : InfoKind) (name : List Nat) :
    info_size k name % k.alignment = 0 := by
  cases k <;>
    simp only [info_size, round_up_to_alignment, InfoKind.alignment,
      InfoKind.name_offset, name_size, name_length_ucs2] <;>
    split <;> omega

/-- On an aligned buffer large enough for the final size, `new_impl`
trims nothing and succeeds with the whole buffer. -/
theorem new_impl_ok_of_aligned (k : InfoKind) (s : Buffer) (name : List Nat)
    (hal : s.base % k.alignment = 0) (hlen : info_size k name ≤ s.len) :
    new_impl k s name = Except.ok (s, info_size k name) := by
  unfold new_impl offset_up_to_alignment
  rw [if_pos hal]
  simp only [Nat.sub_zero, Nat.add_zero]
  rw [if_neg (by omega), if_neg (by omega)]

/-- Scanning for the first null in a zero-free prefix followed by a null
recovers exactly the prefix. -/
theorem cstr16_scan_append (l junk : List Nat) :
    (∀ c ∈ l, c ≠ 0) → cstr16_from_ptr (l ++ 0 :: junk) = l := by
  induction l with
  | nil => intro _; simp [cstr16_from_ptr]
  | cons x xs ih =>
      intro h
      have hx : (x != 0) = true := by
        simpa using h x (by simp)
      have hxs := ih fun c hc => h c (by simp [hc])
      simpa [cstr16_from_ptr, hx] using hxs

/-- Taking the stored slice length out of the record memory plus trailing
junk recovers exactly the stored slice. -/
theorem take_slice_append (l junk : List Nat) :
    ((l ++ [0]) ++ junk).take (l.length + 1) = l ++ [0] := by
  have h : l.length + 1 ≤ (l ++ [0]).length := by simp
  rw [List.take_append_of_le_length h]
  have h2 : (l ++ [0]).length = l.length + 1 := by simp
  rw [← h2, List.take_length]

/-- Claim C3: for every kind and every name of `n` code units (terminator
excluded), the computed final record size equals `name_offset` plus
`(n+1)*2` bytes rounded up to the next multiple of the kind's alignment;
consequently it is a multiple of the alignment and at least
`header_size + (n+1)*2`. -/
theorem C3_size_formula (k : InfoKind) (name : List Nat) :
    info_size k name =
      round_up_to_alignment k.alignment (k.name_offset + (name.length + 1) * 2) ∧
    info_size k name % k.alignment = 0 ∧
    k.name_offset + (name.length + 1) * 2 ≤ info_size k name := by
  have hlow := info_size_lower k name
  have heq : name_size name = (name.length + 1) * 2 := by
    simp [name_size, name_length_ucs2, Nat.mul_comm]
  refine ⟨?_, info_size_mod k name, ?_⟩
  · rw [info_size, heq]
  · rw [heq] at hlow
    exact hlow

/-- Claim C9: the final size of a volume-label record is exactly
`(n+1)*2` bytes — header size 0, and the 2-byte alignment never rounds
because UCS-2 name bytes are already a multiple of 2. -/
theorem C9_volume_label_exact (name : List Nat) :
    info_size .fileSystemVolumeLabel name = (name.length + 1) * 2 := by
  simp only [info_size, InfoKind.alignment, InfoKind.name_offset, name_size,
    name_length_ucs2, round_up_to_alignment, Nat.zero_add]
  split <;> omega

/-- Claim C8: building a `FileInfo` with the 9-code-unit name
`"test_name"` stores final size 104 (80 + 20 rounded to 8), and building a
`FileSystemInfo` with the 10-code-unit name `"test_name2"` stores final
size 64 (36 + 22 rounded to 8). -/
theorem C8_concrete_sizes :
    info_size .fileInfo testName = 104 ∧
    FileInfo.new ⟨0, 128⟩ 123 456 ⟨1970⟩ ⟨1971⟩ ⟨1972⟩ 1 testName =
      Except.ok ⟨104, 123, 456, ⟨1970⟩, ⟨1971⟩, ⟨1972⟩, 1, testName ++ [0]⟩ ∧
    info_size .fileSystemInfo testName2 = 64 ∧
    FileSystemInfo.new ⟨0, 128⟩ true 123 456 789 testName2 =
      Except.ok ⟨64, true, 123, 456, 789, testName2 ++ [0]⟩ :=
  ⟨rfl, rfl, rfl, rfl⟩

/-- Claim C6: `new_impl` — the single construction path of all three `new`
entry points — either succeeds or fails with
`InsufficientStorage(final_size)`; there is no other failure mode.  (Read
accessors are total by their very types in this embedding: they return
plain values, never an `Except` or `Option`.) -/
theorem C6_sole_error_mode (k : InfoKind) (storage : Buffer) (name : List Nat) :
    (∃ b, new_impl k storage name = Except.ok (b, info_size k name)) ∨
    new_impl k storage name =
      Except.error (FileInfoCreationError.InsufficientStorage (info_size k name)) := by
  simp only [new_impl]
  split_ifs
  · right; rfl
  · right; rfl
  · left; exact ⟨_, rfl⟩

/-- Claim C4: on a correctly aligned buffer of exactly the final computed
size construction succeeds, and on an aligned buffer one byte shorter it
fails with `InsufficientStorage` carrying exactly that final size. -/
theorem C4_exact_fit (k : InfoKind) (base : Nat) (name : List Nat)
    (hal : base % k.alignment = 0) :
    new_impl k (Buffer.mk base (info_size k name)) name =
      Except.ok (Buffer.mk base (info_size k name), info_size k name) ∧
    new_impl k (Buffer.mk base (info_size k name - 1)) name =
      Except.error (FileInfoCreationError.InsufficientStorage (info_size k name)) := by
  have hlow := info_size_lower k name
  have h2 : 2 ≤ name_size name := by
    simp only [name_size, name_length_ucs2]; omega
  have hpos : 1 ≤ info_size k name := by omega
  constructor
  · exact new_impl_ok_of_aligned k _ name hal (le_refl _)
  · unfold new_impl offset_up_to_alignment
    rw [if_pos hal]
    simp only [Nat.sub_zero]
    rw [if_neg (by omega), if_pos (by omega)]

/-- Claim C5: on a buffer whose base is misaligned by `off` bytes
(`1 ≤ off ≤ alignment - 1`), construction trims `alignment - off` leading
bytes; it succeeds on the trimmed remainder when at least `final_size`
bytes remain, and otherwise fails with `InsufficientStorage(final_size)` —
the rounded final size is the required byte count on the alignment-failure
path as well. -/
theorem C5_misalignment (k : InfoKind) (base len off : Nat) (name : List Nat)
    (hoff : base % k.alignment = off) (h1 : 1 ≤ off) (h2 : off ≤ k.alignment - 1) :
    (k.alignment - off + info_size k name ≤ len →
      new_impl k (Buffer.mk base len) name =
        Except.ok (Buffer.mk (base + (k.alignment - off))
          (len - (k.alignment - off)), info_size k name)) ∧
    (len < k.alignment - off + info_size k name →
      new_impl k (Buffer.mk base len) name =
        Except.error (FileInfoCreationError.InsufficientStorage (info_size k name))) := by
  have htrim : offset_up_to_alignment k.alignment base = k.alignment - off := by
    unfold offset_up_to_alignment
    rw [if_neg (by omega), hoff]
  constructor
  · intro hle
    simp only [new_impl, htrim]
    rw [if_neg (by omega), if_neg (by omega)]
  · intro hlt
    simp only [new_impl, htrim]
    split_ifs with ha hb
    · rfl
    · rfl
    · omega

/-- Every header field byte range lies within the fixed header, i.e. before
the name trailer. -/
theorem header_field_ranges_bound (k : InfoKind) (r : Nat × Nat)
    (hr : r ∈ header_field_ranges k) : r.1 + r.2 ≤ k.name_offset := by
  cases k with
  | fileInfo =>
      simp only [header_field_ranges, List.mem_cons, List.not_mem_nil,
        or_false] at hr
      rcases hr with rfl | rfl | rfl | rfl | rfl | rfl | rfl <;> decide
  | fileSystemInfo =>
      simp only [header_field_ranges, List.mem_cons, List.not_mem_nil,
        or_false] at hr
      rcases hr with rfl | rfl | rfl | rfl | rfl <;> decide
  | fileSystemVolumeLabel =>
      simp only [header_field_ranges, List.not_mem_nil] at hr

/-- Claim C7: a successful build writes only bytes within
`[region.base, region.base + final_size)` of the aligned region, and a
failing build performs no write at all (both capacity checks precede every
write in `new_impl`, which `build_writes` mirrors in program order). -/
theorem C7_frame (k : InfoKind) (storage : Buffer) (name : List Nat) :
    (∀ e, (build_writes k storage name).2 = Except.error e →
      (build_writes k storage name).1 = []) ∧
    (∀ buf, (build_writes k storage name).2 = Except.ok buf →
      ∀ w ∈ (build_writes k storage name).1,
        buf.base ≤ w.1 ∧ w.1 + w.2 ≤ buf.base + info_size k name) := by
  have hlow := info_size_lower k name
  cases hni : new_impl k storage name with
  | error e =>
      constructor
      · intro e2 _
        simp [build_writes, hni]
      · intro buf hb
        simp [build_writes, hni] at hb
  | ok p =>
      constructor
      · intro e2 he
        simp [build_writes, hni] at he
      · intro buf hb w hw
        simp only [build_writes, hni] at hb hw
        replace hb : p.1 = buf := by simpa using hb
        subst hb
        rcases List.mem_append.1 hw with hw | hw
        · rcases List.mem_map.1 hw with ⟨r, hr, rfl⟩
          have hbound := header_field_ranges_bound k r hr
          constructor
          · omega
          · simp only []
            omega
        · have hw' : w = (p.1.base + k.name_offset, name_size name) := by
            simpa using hw
          subst hw'
          constructor
          · omega
          · simp only []
            omega

/-- Inversion of a successful `FileInfo::new`: the stored attribute is the
supplied one and the stored name slice is the name plus its terminator. -/
theorem fileInfo_new_ok_inv (storage : Buffer) (fs ps : Nat)
    (ct lat mt : Time) (a : FileAttribute) (name : List Nat) (r : FileInfo)
    (h : FileInfo.new storage fs ps ct lat mt a name = Except.ok r) :
    r.attr = a ∧ r.file_name = name ++ [0] := by
  unfold FileInfo.new at h
  cases hni : new_impl .fileInfo storage name with
  | error e =>
      rw [hni] at h
      exact Except.noConfusion h
  | ok p =>
      rw [hni] at h
      have h2 := Except.ok.inj h
      rw [← h2]
      exact ⟨rfl, rfl⟩

/-- Inversion of a successful `FileSystemInfo::new`. -/
theorem fileSystemInfo_new_ok_inv (storage : Buffer) (ro : Bool)
    (vs fsp bs : Nat) (name : List Nat) (r : FileSystemInfo)
    (h : FileSystemInfo.new storage ro vs fsp bs name = Except.ok r) :
    r.volume_label = name ++ [0] := by
  unfold FileSystemInfo.new at h
  cases hni : new_impl .fileSystemInfo storage name with
  | error e =>
      rw [hni] at h
      exact Except.noConfusion h
  | ok p =>
      rw [hni] at h
      have h2 := Except.ok.inj h
      rw [← h2]

/-- Inversion of a successful `FileSystemVolumeLabel::new`. -/
theorem volumeLabel_new_ok_inv (storage : Buffer)
    (name : List Nat) (r : FileSystemVolumeLabel)
    (h : FileSystemVolumeLabel.new storage name = Except.ok r) :
    r.volume_label = name ++ [0] := by
  unfold FileSystemVolumeLabel.new at h
  cases hni : new_impl .fileSystemVolumeLabel storage name with
  | error e =>
      rw [hni] at h
      exact Except.noConfusion h
  | ok p =>
      rw [hni] at h
      have h2 := Except.ok.inj h
      rw [← h2]

/-- Claim C10: on every constructed `FileInfo`, `is_directory` returns
exactly whether the attribute bits supplied at construction contain the
DIRECTORY flag, `is_regular_file` is its exact negation, and the two
predicates are mutually exclusive and exhaustive. -/
theorem C10_directory_predicates (storage : Buffer) (fs ps : Nat)
    (ct lat mt : Time) (a : FileAttribute) (name : List Nat) (r : FileInfo)
    (h : FileInfo.new storage fs ps ct lat mt a name = Except.ok r) :
    r.is_directory = a.contains FileAttribute.DIRECTORY ∧
    r.is_regular_file = (!r.is_directory) ∧
    (r.is_directory && r.is_regular_file) = false ∧
    (r.is_directory || r.is_regular_file) = true := by
  have hattr := (fileInfo_new_ok_inv storage fs ps ct lat mt a name r h).1
  refine ⟨by rw [FileInfo.is_directory, hattr], rfl, ?_, ?_⟩
  · simp [FileInfo.is_regular_file]
  · simp [FileInfo.is_regular_file]

/-- Claim C1: on sufficiently large, correctly aligned buffers, all three
per-kind `new` entry points succeed, every read accessor returns exactly
the supplied value (the name accessor the supplied name), and the stored
size field equals the constructed record's size (`size_of_val`). -/
theorem C1_round_trip (s1 s2 s3 : Buffer) (fs ps : Nat)
    (ct lat mt : Time) (a : FileAttribute) (ro : Bool)
    (vs fsp bs : Nat) (name : List Nat) (hname : ValidName name)
    (h1a : s1.base % InfoKind.fileInfo.alignment = 0)
    (h1b : info_size .fileInfo name ≤ s1.len)
    (h2a : s2.base % InfoKind.fileSystemInfo.alignment = 0)
    (h2b : info_size .fileSystemInfo name ≤ s2.len)
    (h3a : s3.base % InfoKind.fileSystemVolumeLabel.alignment = 0)
    (h3b : info_size .fileSystemVolumeLabel name ≤ s3.len) :
    (∃ r : FileInfo,
      FileInfo.new s1 fs ps ct lat mt a name = Except.ok r ∧
      r.file_size = fs ∧ r.physical_size = ps ∧
      r.create_time = ct ∧ r.last_access_time = lat ∧
      r.modification_time = mt ∧ r.attr = a ∧
      r.file_name_str = name ∧
      r.size = info_size .fileInfo name ∧ r.size = r.size_of_val) ∧
    (∃ r : FileSystemInfo,
      FileSystemInfo.new s2 ro vs fsp bs name = Except.ok r ∧
      r.read_only = ro ∧ r.volume_size = vs ∧
      r.free_space = fsp ∧ r.block_size = bs ∧
      r.volume_label_str = name ∧
      r.size = info_size .fileSystemInfo name ∧ r.size = r.size_of_val) ∧
    (∃ r : FileSystemVolumeLabel,
      FileSystemVolumeLabel.new s3 name = Except.ok r ∧
      r.volume_label_str = name) := by
  have hscan : cstr16_from_ptr (name ++ [0]) = name :=
    cstr16_scan_append name [] fun c hc => (hname c hc).1
  have hlen : (name ++ [0]).length = name.length + 1 := by simp
  refine ⟨⟨{ size := info_size .fileInfo name, file_size := fs,
             physical_size := ps, create_time := ct,
             last_access_time := lat, modification_time := mt,
             attr := a, file_name := name ++ [0] },
           ?_, rfl, rfl, rfl, rfl, rfl, rfl, hscan, rfl, ?_⟩,
          ⟨{ size := info_size .fileSystemInfo name, read_only := ro,
             volume_size := vs, free_space := fsp, block_size := bs,
             volume_label := name ++ [0] },
           ?_, rfl, rfl, rfl, rfl, hscan, rfl, ?_⟩,
          ⟨{ volume_label := name ++ [0] }, ?_, hscan⟩⟩
  · unfold FileInfo.new
    rw [new_impl_ok_of_aligned .fileInfo s1 name h1a h1b]
    rfl
  · simp only [FileInfo.size_of_val, info_size, name_size, name_length_ucs2,
      hlen]
  · unfold FileSystemInfo.new
    rw [new_impl_ok_of_aligned .fileSystemInfo s2 name h2a h2b]
    rfl
  · simp only [FileSystemInfo.size_of_val, info_size, name_size,
      name_length_ucs2, hlen]
  · unfold FileSystemVolumeLabel.new
    rw [new_impl_ok_of_aligned .fileSystemVolumeLabel s3 name h3a h3b]
    rfl

/-- Claim C2: reconstructing via `from_uefi` from the base address of a
record built with a known name recovers exactly the same name (scanned up
to the first null in the trailer), the same metadata length and the same
header field values — the reconstructed view equals the built record for
any memory contents following it — and the view's extent is
`name_offset + (name code units + 1) * 2` bytes. -/
theorem C2_reconstruction (s1 s2 s3 : Buffer) (fs ps : Nat)
    (ct lat mt : Time) (a : FileAttribute) (ro : Bool)
    (vs fsp bs : Nat) (name junk : List Nat) (hname : ValidName name)
    (r1 : FileInfo) (r2 : FileSystemInfo) (r3 : FileSystemVolumeLabel)
    (h1 : FileInfo.new s1 fs ps ct lat mt a name = Except.ok r1)
    (h2 : FileSystemInfo.new s2 ro vs fsp bs name = Except.ok r2)
    (h3 : FileSystemVolumeLabel.new s3 name = Except.ok r3) :
    (r1.from_uefi junk = r1 ∧
      (r1.from_uefi junk).view_extent =
        InfoKind.fileInfo.name_offset + (name.length + 1) * 2) ∧
    (r2.from_uefi junk = r2 ∧
      (r2.from_uefi junk).view_extent =
        InfoKind.fileSystemInfo.name_offset + (name.length + 1) * 2) ∧
    (r3.from_uefi junk = r3 ∧
      (r3.from_uefi junk).view_extent =
        InfoKind.fileSystemVolumeLabel.name_offset + (name.length + 1) * 2) := by
  have hfn1 := (fileInfo_new_ok_inv s1 fs ps ct lat mt a name r1 h1).2
  have hfn2 := fileSystemInfo_new_ok_inv s2 ro vs fsp bs name r2 h2
  have hfn3 := volumeLabel_new_ok_inv s3 name r3 h3
  have hscan : cstr16_from_ptr ((name ++ [0]) ++ junk) = name := by
    have h := cstr16_scan_append name junk fun c hc => (hname c hc).1
    simpa using h
  have htake : ((name ++ [0]) ++ junk).take
      (name_length_ucs2 (cstr16_from_ptr ((name ++ [0]) ++ junk))) =
      name ++ [0] := by
    rw [hscan, name_length_ucs2, take_slice_append]
  refine ⟨⟨?_, ?_⟩, ⟨?_, ?_⟩, ⟨?_, ?_⟩⟩
  · simp only [FileInfo.from_uefi, hfn1, htake]
    rw [← hfn1]
  · simp only [FileInfo.from_uefi, hfn1, htake, FileInfo.view_extent]
    simp only [List.length_append, List.length_cons, List.length_nil]
    omega
  · simp only [FileSystemInfo.from_uefi, hfn2, htake]
    rw [← hfn2]
  · simp only [FileSystemInfo.from_uefi, hfn2, htake,
      FileSystemInfo.view_extent]
    simp only [List.length_append, List.length_cons, List.length_nil]
    omega
  · simp only [FileSystemVolumeLabel.from_uefi, hfn3, htake]
    rw [← hfn3]
  · simp only [FileSystemVolumeLabel.from_uefi, hfn3, htake,
      FileSystemVolumeLabel.view_extent]
    simp only [List.length_append, List.length_cons, List.length_nil]
    omega

/-- Concrete instance of C1: the source tests' inputs on a 128-byte buffer
at address 0. -/
theorem C1_round_trip_witness :
    (∃ r : FileInfo,
      FileInfo.new ⟨0, 128⟩ 123 456 ⟨1970⟩ ⟨1971⟩ ⟨1972⟩ 16 testName =
        Except.ok r ∧
      r.file_size = 123 ∧ r.physical_size = 456 ∧
      r.create_time = ⟨1970⟩ ∧ r.last_access_time = ⟨1971⟩ ∧
      r.modification_time = ⟨1972⟩ ∧ r.attr = 16 ∧
      r.file_name_str = testName ∧
      r.size = info_size .fileInfo testName ∧ r.size = r.size_of_val) ∧
    (∃ r : FileSystemInfo,
      FileSystemInfo.new ⟨0, 128⟩ true 111 222 333 testName = Except.ok r ∧
      r.read_only = true ∧ r.volume_size = 111 ∧
      r.free_space = 222 ∧ r.block_size = 333 ∧
      r.volume_label_str = testName ∧
      r.size = info_size .fileSystemInfo testName ∧ r.size = r.size_of_val) ∧
    (∃ r : FileSystemVolumeLabel,
      FileSystemVolumeLabel.new ⟨0, 128⟩ testName = Except.ok r ∧
      r.volume_label_str = testName) :=
  C1_round_trip ⟨0, 128⟩ ⟨0, 128⟩ ⟨0, 128⟩ 123 456 ⟨1970⟩ ⟨1971⟩ ⟨1972⟩ 16
    true 111 222 333 testName (by decide) (by decide) (by decide) (by decide)
    (by decide) (by decide) (by decide)

/-- Concrete instance of C2: reconstruction of the three records built from
`testName`, with one junk word following them in memory. -/
theorem C2_reconstruction_witness :
    (FileInfo.from_uefi ⟨104, 123, 456, ⟨1970⟩, ⟨1971⟩, ⟨1972⟩, 16,
        testName ++ [0]⟩ [42] =
      ⟨104, 123, 456, ⟨1970⟩, ⟨1971⟩, ⟨1972⟩, 16, testName ++ [0]⟩ ∧
      (FileInfo.from_uefi ⟨104, 123, 456, ⟨1970⟩, ⟨1971⟩, ⟨1972⟩, 16,
          testName ++ [0]⟩ [42]).view_extent =
        InfoKind.fileInfo.name_offset + (testName.length + 1) * 2) ∧
    (FileSystemInfo.from_uefi ⟨56, true, 111, 222, 333, testName ++ [0]⟩ [42] =
      ⟨56, true, 111, 222, 333, testName ++ [0]⟩ ∧
      (FileSystemInfo.from_uefi ⟨56, true, 111, 222, 333,
          testName ++ [0]⟩ [42]).view_extent =
        InfoKind.fileSystemInfo.name_offset + (testName.length + 1) * 2) ∧
    (FileSystemVolumeLabel.from_uefi ⟨testName ++ [0]⟩ [42] =
      ⟨testName ++ [0]⟩ ∧
      (FileSystemVolumeLabel.from_uefi ⟨testName ++ [0]⟩ [42]).view_extent =
        InfoKind.fileSystemVolumeLabel.name_offset + (testName.length + 1) * 2) :=
  C2_reconstruction ⟨0, 128⟩ ⟨0, 128⟩ ⟨0, 128⟩ 123 456 ⟨1970⟩ ⟨1971⟩ ⟨1972⟩ 16
    true 111 222 333 testName [42] (by decide)
    ⟨104, 123, 456, ⟨1970⟩, ⟨1971⟩, ⟨1972⟩, 16, testName ++ [0]⟩
    ⟨56, true, 111, 222, 333, testName ++ [0]⟩
    ⟨testName ++ [0]⟩ rfl rfl rfl

/-- Concrete instance of C4 at `FileInfo` with `testName` on an aligned
buffer at address 0. -/
theorem C4_exact_fit_witness :
    new_impl .fileInfo (Buffer.mk 0 (info_size .fileInfo testName)) testName =
      Except.ok (Buffer.mk 0 (info_size .fileInfo testName),
        info_size .fileInfo testName) ∧
    new_impl .fileInfo (Buffer.mk 0 (info_size .fileInfo testName - 1))
        testName =
      Except.error (FileInfoCreationError.InsufficientStorage
        (info_size .fileInfo testName)) :=
  C4_exact_fit .fileInfo 0 testName (by decide)

/-- Concrete instance of C5: a buffer at address 1 (7 bytes of trim for
alignment 8) with exactly enough, and with one byte too few. -/
theorem C5_misalignment_witness :
    new_impl .fileInfo (Buffer.mk 1 111) testName =
      Except.ok (Buffer.mk (1 + (InfoKind.fileInfo.alignment - 1))
        (111 - (InfoKind.fileInfo.alignment - 1)), info_size .fileInfo testName) ∧
    new_impl .fileInfo (Buffer.mk 1 110) testName =
      Except.error (FileInfoCreationError.InsufficientStorage
        (info_size .fileInfo testName)) :=
  ⟨(C5_misalignment .fileInfo 1 111 1 testName (by decide) (by decide)
      (by decide)).1 (by decide),
   (C5_misalignment .fileInfo 1 110 1 testName (by decide) (by decide)
      (by decide)).2 (by decide)⟩

/-- Concrete instance of C7: the first header write of a successful
`FileInfo` build at address 0 lies within the final-size window. -/
theorem C7_frame_witness :
    (0, 8) ∈ (build_writes .fileInfo (Buffer.mk 0 128) testName).1 ∧
    (0, 8).1 + (0, 8).2 ≤
      (Buffer.mk 0 128).base + info_size .fileInfo testName :=
  ⟨by decide,
   ((C7_frame .fileInfo (Buffer.mk 0 128) testName).2 (Buffer.mk 0 128) rfl
      (0, 8) (by decide)).2⟩

/-- Concrete instance of C10 on the record built with attribute bits 16
(the DIRECTORY bit). -/
theorem C10_directory_predicates_witness :
    FileInfo.is_directory
        ⟨104, 123, 456, ⟨1970⟩, ⟨1971⟩, ⟨1972⟩, 16, testName ++ [0]⟩ =
      FileAttribute.contains 16 FileAttribute.DIRECTORY ∧
    FileInfo.is_regular_file
        ⟨104, 123, 456, ⟨1970⟩, ⟨1971⟩, ⟨1972⟩, 16, testName ++ [0]⟩ =
      (!FileInfo.is_directory
        ⟨104, 123, 456, ⟨1970⟩, ⟨1971⟩, ⟨1972⟩, 16, testName ++ [0]⟩) ∧
    (FileInfo.is_directory
        ⟨104, 123, 456, ⟨1970⟩, ⟨1971⟩, ⟨1972⟩, 16, testName ++ [0]⟩ &&
      FileInfo.is_regular_file
        ⟨104, 123, 456, ⟨1970⟩, ⟨1971⟩, ⟨1972⟩, 16, testName ++ [0]⟩) = false ∧
    (FileInfo.is_directory
        ⟨104, 123, 456, ⟨1970⟩, ⟨1971⟩, ⟨1972⟩, 16, testName ++ [0]⟩ ||
      FileInfo.is_regular_file
        ⟨104, 123, 456, ⟨1970⟩, ⟨1971⟩, ⟨1972⟩, 16, testName ++ [0]⟩) = true :=
  C10_directory_predicates ⟨0, 128⟩ 123 456 ⟨1970⟩ ⟨1971⟩ ⟨1972⟩ 16 testName
    ⟨104, 123, 456, ⟨1970⟩, ⟨1971⟩, ⟨1972⟩, 16, testName ++ [0]⟩ rfl
